import Mathlib

/-!
Verification of the networkservicemesh broker core (plugins/nsmserver/nsmserver_client.go
and the objectstore dataplane registry) against its specification.

The Go code is shallowly embedded: Go maps become association lists over `String`
keys, the gRPC status returned out-of-band becomes an `Option GrpcStatus`, the
Kubernetes endpoint-lister call becomes an explicit `Except` parameter, and the
filesystem `MkdirAll` call becomes an explicit success oracle. Goroutines and
channel blocking are outside the embedding; the stop channel of a socket is
modelled by a numeric identity drawn from a fresh counter so that descriptor
replacement ("a new stop-signal channel") is observable.
-/

/-- Association-list lookup, modelling a Go map read: the value under a key, or
absence. Keys in all stores below are unique, so this is the map semantics. -/
def alookup {α : Type} : List (String × α) → String → Option α
  | [], _ => none
  | (k, v) :: rest, key => if k = key then some v else alookup rest key

/-- Association-list update, modelling a Go map write `m[key] = v`. -/
def aupdate {α : Type} : List (String × α) → String → α → List (String × α)
  | [], key, v => [(key, v)]
  | (k, w) :: rest, key, v =>
      if k = key then (k, v) :: rest else (k, w) :: aupdate rest key v

/-- Association-list removal, modelling the Go builtin `delete(m, key)`. -/
def aremove {α : Type} : List (String × α) → String → List (String × α)
  | [], _ => []
  | (k, v) :: rest, key =>
      if k = key then aremove rest key else (k, v) :: aremove rest key

/-- Checks whether the second character list occurs at the head of the first. -/
def matchesAt : List Char → List Char → Bool
  | _, [] => true
  | [], _ :: _ => false
  | h :: hs, n :: ns => h = n && matchesAt hs ns

/-- Checks whether the second character list occurs anywhere inside the first. -/
def hasSub : List Char → List Char → Bool
  | [], needle => matchesAt [] needle
  | h :: hs, needle => matchesAt (h :: hs) needle || hasSub hs needle

/-- Executable substring test on strings. -/
def strContains (hay needle : String) : Bool :=
  hasSub hay.data needle.data

/-- Go `path.Join` restricted to the clean, non-empty segments the code joins. -/
def pathJoin (a b : String) : String := a ++ "/" ++ b

/-- Modelled from the spec: `SocketBaseDir` is declared elsewhere in the
nsmserver package (not among the provided sources); the spec fixes only that
sockets live under one fixed base directory, so the concrete value is free. -/
def SocketBaseDir : String := "/var/lib/networkservicemesh"

/-- Modelled from the spec: `ServerSock` (the per-client socket file name) is
declared elsewhere in the nsmserver package; its concrete value is free. -/
def ServerSock : String := "nsm.io.sock"

/-- The `pluginapi.Healthy` constant of the Kubernetes device-plugin API. -/
def Healthy : String := "Healthy"

/-- The `pluginapi.Device` record (only the fields the code sets). -/
structure Device where
  ID : String
  Health : String
  deriving DecidableEq, Repr

/-- The `pluginapi.Mount` record returned by `Allocate`. -/
structure Mount where
  ContainerPath : String
  HostPath : String
  ReadOnly : Bool
  deriving DecidableEq, Repr

/-- One container's entry in a `pluginapi.AllocateRequest`. -/
structure ContainerAllocateRequest where
  DevicesIDs : List String
  deriving DecidableEq, Repr

/-- The `pluginapi.AllocateRequest` batch. -/
structure AllocateRequest where
  ContainerRequests : List ContainerAllocateRequest
  deriving DecidableEq, Repr

/-- One container's reply inside a `pluginapi.AllocateResponse`. -/
structure ContainerAllocateResponse where
  Mounts : List Mount
  deriving DecidableEq, Repr

/-- The `pluginapi.AllocateResponse` batch reply. -/
structure AllocateResponse where
  ContainerResponses : List ContainerAllocateResponse
  deriving DecidableEq, Repr

/-- The `pluginapi.ListAndWatchResponse` device-table snapshot. -/
structure ListAndWatchResponse where
  Devices : List Device
  deriving DecidableEq, Repr

/-- The `netmesh.NetworkService` object held by the registry. The active
request path only tests it for presence, so a name field suffices. -/
structure NetworkService where
  name : String
  deriving DecidableEq, Repr

/-- An `nsmapi.NetworkServiceEndpoint` advertisement record; the active path
only counts these, so a provider name suffices. -/
structure NetworkServiceEndpoint where
  providerName : String
  deriving DecidableEq, Repr

/-- The `nsmconnect.ConnectionParameters` message; the code only ever builds
the empty value, so the model carries no fields. -/
structure ConnectionParameters where
  deriving DecidableEq, Repr

/-- The `nsmconnect.ConnectionRequest` message (fields read by the active
path; the metadata and interface-preference fields are only consumed by the
disabled pipeline and are omitted). -/
structure ConnectionRequest where
  RequestId : String
  NetworkServiceName : String
  LinuxNamespace : String
  deriving DecidableEq, Repr

/-- The `nsmconnect.ConnectionReply` message. A Go nil pointer for the
parameters is `none`. -/
structure ConnectionReply where
  Accepted : Bool
  AdmissionError : String
  ConnectionParameters : Option ConnectionParameters
  deriving DecidableEq, Repr

/-- The gRPC status codes this file signals. -/
inductive GrpcCode where
  | NotFound
  | AlreadyExists
  | Aborted
  deriving DecidableEq, Repr

/-- A gRPC error as built by `status.Error(code, message)`; a nil Go error is
modelled by `Option.none` at the use sites. -/
structure GrpcStatus where
  code : GrpcCode
  message : String
  deriving DecidableEq, Repr

/-- The `clientNetworkService` record: one workload's outstanding or completed
request for one network service. -/
structure ClientNetworkService where
  networkService : NetworkService
  ConnectionParameters : ConnectionParameters
  isInProgress : Bool
  deriving DecidableEq, Repr

/-- The `nsmSocket` record. The Go `stopChannel chan bool` is modelled by a
numeric channel identity taken from a fresh counter, so that re-allocation
visibly installs a new channel. -/
structure NsmSocket where
  device : Device
  socketPath : String
  stopChannel : Nat
  allocated : Bool
  deriving DecidableEq, Repr

/-- The mutable state of `nsmClientEndpoints`: the socket table, the network
service registry reachable through its object store, and the two-level
client-connection dedup table. `nextChanId` is the fresh-channel counter of
the embedding. -/
structure NsmClientEndpoints where
  nsmSockets : List (String × NsmSocket)
  networkServices : List (String × NetworkService)
  clientConnections : List (String × List (String × ClientNetworkService))
  nextChanId : Nat
  deriving DecidableEq, Repr

/-- Modelled from the spec: `objectstore.Interface.GetNetworkService` is not
among the provided sources; per the spec the registry `Get` returns the stored
descriptor for a name or an absent result, and never fails. -/
def GetNetworkService (n : NsmClientEndpoints) (name : String) : Option NetworkService :=
  alookup n.networkServices name

/-- The nested two-step read of `n.clientConnections[cr.RequestId][cr.NetworkServiceName]`
performed by `RequestConnection`: absent if either level is absent. -/
def lookupClientConnection (n : NsmClientEndpoints)
    (requestId serviceName : String) : Option ClientNetworkService :=
  match alookup n.clientConnections requestId with
  | none => none
  | some inner => alookup inner serviceName

/-- The `isInProgress` helper of nsmserver_client.go. -/
def isInProgress (networkService : ClientNetworkService) : Bool :=
  networkService.isInProgress

/-- The full result of one `RequestConnection` call: the reply message, the
out-of-band gRPC status (none for a nil Go error), and the broker state after
the call. -/
structure ConnectionOutcome where
  reply : ConnectionReply
  grpcStatus : Option GrpcStatus
  state : NsmClientEndpoints
  deriving DecidableEq, Repr

/-- The active path of `nsmClientEndpoints.RequestConnection`. The endpoint
lister call `getNetworkServiceEndpoint` reaches out to the Kubernetes API, so
its result is passed in as `endpointsResult`; every branch mirrors the source,
including the literal format strings (the unknown-service and in-progress
messages really interpolate `cr.RequestId`). The commented-out provider
pipeline of the source is not part of the active path and is not modelled. -/
def RequestConnection (n : NsmClientEndpoints) (cr : ConnectionRequest)
    (endpointsResult : Except String (List NetworkServiceEndpoint)) : ConnectionOutcome :=
  match GetNetworkService n cr.NetworkServiceName with
  | none =>
      { reply := { Accepted := false
                   AdmissionError :=
                     "requested Network Service " ++ cr.RequestId ++ " does not exist"
                   ConnectionParameters := none }
        grpcStatus := some { code := GrpcCode.NotFound
                             message := "requested network service not found" }
        state := n }
  | some _ =>
      match lookupClientConnection n cr.RequestId cr.NetworkServiceName with
      | some existing =>
          if isInProgress existing then
            { reply := { Accepted := false
                         AdmissionError :=
                           "dataplane for requested Network Service " ++ cr.RequestId ++
                             " is still being programmed, retry"
                         ConnectionParameters := none }
              grpcStatus := some { code := GrpcCode.AlreadyExists
                                   message :=
                                     "dataplane for requested network service is being programmed, retry" }
              state := n }
          else
            { reply := { Accepted := true
                         AdmissionError := ""
                         ConnectionParameters := some {} }
              grpcStatus := none
              state := n }
      | none =>
          match endpointsResult with
          | Except.error err =>
              { reply := { Accepted := false
                           AdmissionError :=
                             "connection request " ++ cr.RequestId ++
                               " failed to get a list of endpoints for requested Network Service " ++
                               cr.NetworkServiceName ++ " with error: " ++ err
                           ConnectionParameters := none }
                grpcStatus := some { code := GrpcCode.Aborted
                                     message :=
                                       "failed to get a list of endpoints for requested Network Service" }
                state := n }
          | Except.ok endpointList =>
              if endpointList.length = 0 then
                { reply := { Accepted := false
                             AdmissionError :=
                               "connection request " ++ cr.RequestId ++
                                 " failed no endpoints were found for requested Network Service " ++
                                 cr.NetworkServiceName
                             ConnectionParameters := none }
                  grpcStatus := some { code := GrpcCode.NotFound
                                       message :=
                                         "failed no endpoints were found for requested Network Service" }
                  state := n }
              else
                { reply := { Accepted := true
                             AdmissionError := ""
                             ConnectionParameters := some {} }
                  grpcStatus := none
                  state := n }

/-- The `cleanConnectionRequest` helper: removes the whole per-request entry.
Only the disabled pipeline calls it; it is the sole writer of
`clientConnections` in the file. -/
def cleanConnectionRequest (requestID : String) (n : NsmClientEndpoints) : NsmClientEndpoints :=
  { n with clientConnections := aremove n.clientConnections requestID }

/-- One device id of an `Allocate` batch, threading the broker state and the
mount list accumulated for the current container. Mirrors the loop body: ids
absent from `nsmSockets` are skipped whole; for known ids a fresh descriptor
(new stop channel, `allocated` set) always replaces the old one, and the mount
is appended only when `MkdirAll` (the `mkdirOk` oracle) succeeds — a failure is
silent. The stop-channel handshake with a still-allocated previous server
blocks on goroutine channels and has no effect on the table itself (the server
mutates a copy of the struct), so it contributes no state change here. -/
def allocateOne (mkdirOk : String → Bool)
    (acc : NsmClientEndpoints × List Mount) (id : String) :
    NsmClientEndpoints × List Mount :=
  match alookup acc.1.nsmSockets id with
  | none => acc
  | some _ =>
      let mount : Mount :=
        { ContainerPath := SocketBaseDir
          HostPath := pathJoin SocketBaseDir ("nsm-" ++ id)
          ReadOnly := false }
      let sock : NsmSocket :=
        { device := { ID := id, Health := Healthy }
          socketPath := pathJoin mount.HostPath ServerSock
          stopChannel := acc.1.nextChanId
          allocated := true }
      let st :=
        { acc.1 with
            nsmSockets := aupdate acc.1.nsmSockets id sock
            nextChanId := acc.1.nextChanId + 1 }
      if mkdirOk mount.HostPath then (st, acc.2 ++ [mount]) else (st, acc.2)

/-- The `Allocate` device-plugin call: per container request, fold the device
ids into mounts, and always answer every container with a response and a nil
error (the Go function returns `&responses, nil` unconditionally). -/
def Allocate (n : NsmClientEndpoints) (reqs : AllocateRequest)
    (mkdirOk : String → Bool) : AllocateResponse × NsmClientEndpoints :=
  let step := fun (acc : NsmClientEndpoints × List ContainerAllocateResponse)
      (req : ContainerAllocateRequest) =>
    let inner := req.DevicesIDs.foldl (allocateOne mkdirOk) (acc.1, [])
    (inner.1, acc.2 ++ [{ Mounts := inner.2 }])
  let final := reqs.ContainerRequests.foldl step (n, [])
  ({ ContainerResponses := final.2 }, final.1)

/-- One iteration of the `ListAndWatch` loop body: snapshot the device table
into a response, push it (`sendOk` is the transport result), log on failure.
The final boolean records whether the loop proceeds to the next iteration; the
source has no exit on any path — a failed send is only logged — so the body
always continues. -/
def listAndWatchStep (n : NsmClientEndpoints) (sendOk : Bool) :
    ListAndWatchResponse × List String × Bool :=
  let resp : ListAndWatchResponse := { Devices := n.nsmSockets.map (fun p => p.2.device) }
  let logs := if sendOk then [] else ["Failed to send response to kubelet"]
  (resp, logs, true)

/-- The `objectstore.Dataplane` descriptor. -/
structure Dataplane where
  RegisteredName : String
  SocketLocation : String
  Parameters : List (String × String)
  deriving DecidableEq, Repr

/-- The `objectstore.dataplaneStore`: all registered dataplane providers keyed
by registered name. -/
structure dataplaneStore where
  dataplanes : List (String × Dataplane)
  deriving DecidableEq, Repr

/-- The `newDataplaneStore` constructor. -/
def newDataplaneStore : dataplaneStore := { dataplanes := [] }

/-- The `dataplaneStore.Add` method: insert only if the registered name is
absent; a present name leaves the store untouched. Never fails. -/
def dataplaneStore.Add (d : dataplaneStore) (dp : Dataplane) : dataplaneStore :=
  match alookup d.dataplanes dp.RegisteredName with
  | some _ => d
  | none => { dataplanes := (dp.RegisteredName, dp) :: d.dataplanes }

/-- The `dataplaneStore.Get` method: the stored descriptor or `none`. -/
def dataplaneStore.Get (d : dataplaneStore) (registeredName : String) : Option Dataplane :=
  alookup d.dataplanes registeredName

/-- The `dataplaneStore.Delete` method: remove if present, no-op otherwise. -/
def dataplaneStore.Delete (d : dataplaneStore) (registeredName : String) : dataplaneStore :=
  { dataplanes := aremove d.dataplanes registeredName }

/-- The `dataplaneStore.List` method: a snapshot slice of all descriptors. -/
def dataplaneStore.List (d : dataplaneStore) : List Dataplane :=
  d.dataplanes.map (fun p => p.2)

/-- A concrete network service used by the witness instances. -/
def sampleNs : NetworkService := { name := "gold-network" }

/-- A concrete connection request used by the witness instances. -/
def sampleCr : ConnectionRequest :=
  { RequestId := "r1", NetworkServiceName := "gold-network", LinuxNamespace := "vpp-ns" }

/-- The broker state right after startup: every map empty. -/
def emptyState : NsmClientEndpoints :=
  { nsmSockets := [], networkServices := [], clientConnections := [], nextChanId := 0 }

/-- A state whose registry knows the gold-network service. -/
def stateWithService : NsmClientEndpoints :=
  { emptyState with networkServices := [("gold-network", sampleNs)] }

/-- A dedup entry flagged in-progress. -/
def cnsInProgress : ClientNetworkService :=
  { networkService := sampleNs, ConnectionParameters := {}, isInProgress := true }

/-- A dedup entry whose programming has completed. -/
def cnsDone : ClientNetworkService :=
  { networkService := sampleNs, ConnectionParameters := {}, isInProgress := false }

/-- A state with an in-progress dedup entry for (r1, gold-network). -/
def stateInProgress : NsmClientEndpoints :=
  { stateWithService with clientConnections := [("r1", [("gold-network", cnsInProgress)])] }

/-- A state with a completed dedup entry for (r1, gold-network). -/
def stateDone : NsmClientEndpoints :=
  { stateWithService with clientConnections := [("r1", [("gold-network", cnsDone)])] }

/-- An endpoint advertisement used by the witness instances. -/
def dummyEp : NetworkServiceEndpoint := { providerName := "nse-1" }

/-- The outcome of requesting gold-network against an empty registry. -/
def goldOutcome : ConnectionOutcome := RequestConnection emptyState sampleCr (Except.ok [])

/-- A registered dataplane descriptor used by the witness instances. -/
def wDpA : Dataplane :=
  { RegisteredName := "vpp1", SocketLocation := "/sock/a", Parameters := [] }

/-- A second descriptor under the same registered name as wDpA. -/
def wDpA2 : Dataplane :=
  { RegisteredName := "vpp1", SocketLocation := "/sock/other", Parameters := [] }

/-- A descriptor under a name absent from the witness store. -/
def wDpB : Dataplane :=
  { RegisteredName := "vpp2", SocketLocation := "/sock/b", Parameters := [] }

/-- A dataplane store already holding wDpA. -/
def wStore : dataplaneStore := { dataplanes := [("vpp1", wDpA)] }

/-- A live socket descriptor used by the witness instances. -/
def wSocket : NsmSocket :=
  { device := { ID := "dev-A", Health := Healthy }
    socketPath := pathJoin (pathJoin SocketBaseDir "nsm-dev-A") ServerSock
    stopChannel := 0
    allocated := true }

/-- A broker state whose socket table holds wSocket under dev-A. -/
def wSockState : NsmClientEndpoints :=
  { emptyState with nsmSockets := [("dev-A", wSocket)], nextChanId := 1 }

/-- Helper: the head character of a string survives appending on the right. -/
theorem head_append_of_head (s t : String) (c : Char)
    (h : s.data.head? = some c) : (s ++ t).data.head? = some c := by
  obtain ⟨ss⟩ := s
  obtain ⟨ts⟩ := t
  cases ss with
  | nil => simp [List.head?] at h
  | cons a as =>
    simp only [List.head?] at h
    exact h ▸ rfl

/-- C1: a connection request for a service absent from the registry is
answered with accepted=false, a not-found admission error, a not-found gRPC
status, and no dedup state is recorded. -/
theorem RequestConnection_unknown_service (n : NsmClientEndpoints) (cr : ConnectionRequest)
    (er : Except String (List NetworkServiceEndpoint))
    (h : GetNetworkService n cr.NetworkServiceName = none) :
    (RequestConnection n cr er).reply.Accepted = false ∧
    (RequestConnection n cr er).reply.AdmissionError =
      "requested Network Service " ++ cr.RequestId ++ " does not exist" ∧
    (RequestConnection n cr er).grpcStatus =
      some { code := GrpcCode.NotFound, message := "requested network service not found" } ∧
    (RequestConnection n cr er).state.clientConnections = n.clientConnections := by
  simp [RequestConnection, h]

/-- C1 witness: the property instantiated on an empty registry. -/
theorem RequestConnection_unknown_service_witness :
    GetNetworkService emptyState sampleCr.NetworkServiceName = none ∧
    ((RequestConnection emptyState sampleCr (Except.ok [])).reply.Accepted = false ∧
     (RequestConnection emptyState sampleCr (Except.ok [])).reply.AdmissionError =
       "requested Network Service " ++ sampleCr.RequestId ++ " does not exist" ∧
     (RequestConnection emptyState sampleCr (Except.ok [])).grpcStatus =
       some { code := GrpcCode.NotFound, message := "requested network service not found" } ∧
     (RequestConnection emptyState sampleCr (Except.ok [])).state.clientConnections =
       emptyState.clientConnections) :=
  ⟨rfl, RequestConnection_unknown_service emptyState sampleCr (Except.ok []) rfl⟩

/-- C3: a duplicate request whose dedup entry is flagged in-progress is
answered with accepted=false, the being-programmed retry admission error, an
already-exists gRPC status, and the state is left unchanged. -/
theorem RequestConnection_in_progress (n : NsmClientEndpoints) (cr : ConnectionRequest)
    (er : Except String (List NetworkServiceEndpoint))
    (hsvc : GetNetworkService n cr.NetworkServiceName ≠ none)
    (hdup : ∃ cns, lookupClientConnection n cr.RequestId cr.NetworkServiceName = some cns ∧
        isInProgress cns = true) :
    (RequestConnection n cr er).reply =
      { Accepted := false
        AdmissionError := "dataplane for requested Network Service " ++ cr.RequestId ++
          " is still being programmed, retry"
        ConnectionParameters := none } ∧
    (RequestConnection n cr er).grpcStatus =
      some { code := GrpcCode.AlreadyExists
             message := "dataplane for requested network service is being programmed, retry" } ∧
    (RequestConnection n cr er).state = n := by
  obtain ⟨cns, hlook, hprog⟩ := hdup
  rcases hg : GetNetworkService n cr.NetworkServiceName with _ | ns
  · exact absurd hg hsvc
  · simp [RequestConnection, hg, hlook, hprog]

/-- C3 witness: the property instantiated on an in-progress entry. -/
theorem RequestConnection_in_progress_witness :
    GetNetworkService stateInProgress sampleCr.NetworkServiceName ≠ none ∧
    lookupClientConnection stateInProgress sampleCr.RequestId sampleCr.NetworkServiceName =
      some cnsInProgress ∧
    isInProgress cnsInProgress = true ∧
    ((RequestConnection stateInProgress sampleCr (Except.ok [dummyEp])).reply =
      { Accepted := false
        AdmissionError := "dataplane for requested Network Service " ++ sampleCr.RequestId ++
          " is still being programmed, retry"
        ConnectionParameters := none } ∧
     (RequestConnection stateInProgress sampleCr (Except.ok [dummyEp])).grpcStatus =
       some { code := GrpcCode.AlreadyExists
              message := "dataplane for requested network service is being programmed, retry" } ∧
     (RequestConnection stateInProgress sampleCr (Except.ok [dummyEp])).state = stateInProgress) :=
  ⟨by decide, by decide, rfl,
    RequestConnection_in_progress stateInProgress sampleCr (Except.ok [dummyEp])
      (by decide) ⟨cnsInProgress, by decide, rfl⟩⟩

/-- C4: a duplicate request whose dedup entry is not in-progress is answered
with accepted=true and freshly empty connection parameters, the state is
unchanged, and any repetition of the call yields the identical outcome. -/
theorem RequestConnection_duplicate_done (n : NsmClientEndpoints) (cr : ConnectionRequest)
    (er : Except String (List NetworkServiceEndpoint))
    (hsvc : GetNetworkService n cr.NetworkServiceName ≠ none)
    (hdup : ∃ cns, lookupClientConnection n cr.RequestId cr.NetworkServiceName = some cns ∧
        isInProgress cns = false) :
    (RequestConnection n cr er).reply =
      { Accepted := true, AdmissionError := "", ConnectionParameters := some {} } ∧
    (RequestConnection n cr er).grpcStatus = none ∧
    (RequestConnection n cr er).state = n ∧
    ∀ er2, RequestConnection (RequestConnection n cr er).state cr er2 =
      RequestConnection n cr er := by
  obtain ⟨cns, hlook, hprog⟩ := hdup
  rcases hg : GetNetworkService n cr.NetworkServiceName with _ | ns
  · exact absurd hg hsvc
  · simp [RequestConnection, hg, hlook, hprog]

/-- C4 witness: idempotent re-acknowledgement on a completed entry. -/
theorem RequestConnection_duplicate_done_witness :
    GetNetworkService stateDone sampleCr.NetworkServiceName ≠ none ∧
    lookupClientConnection stateDone sampleCr.RequestId sampleCr.NetworkServiceName =
      some cnsDone ∧
    isInProgress cnsDone = false ∧
    ((RequestConnection stateDone sampleCr (Except.ok [])).reply =
      { Accepted := true, AdmissionError := "", ConnectionParameters := some {} } ∧
     (RequestConnection stateDone sampleCr (Except.ok [])).grpcStatus = none ∧
     (RequestConnection stateDone sampleCr (Except.ok [])).state = stateDone ∧
     RequestConnection (RequestConnection stateDone sampleCr (Except.ok [])).state sampleCr
         (Except.error "transport down") =
       RequestConnection stateDone sampleCr (Except.ok [])) := by
  have h := RequestConnection_duplicate_done stateDone sampleCr (Except.ok [])
    (by decide) ⟨cnsDone, by decide, rfl⟩
  exact ⟨by decide, by decide, rfl, h.1, h.2.1, h.2.2.1, h.2.2.2 (Except.error "transport down")⟩

/-- C5 (code bug witness): with an empty registry, requesting gold-network is
rejected with a not-found status, but the admission-error message interpolates
the request id, not the service name — the reply text never mentions
gold-network. -/
theorem RequestConnection_gold_network_message :
    goldOutcome.reply.Accepted = false ∧
    goldOutcome.grpcStatus =
      some { code := GrpcCode.NotFound, message := "requested network service not found" } ∧
    goldOutcome.reply.AdmissionError = "requested Network Service r1 does not exist" ∧
    strContains goldOutcome.reply.AdmissionError sampleCr.NetworkServiceName = false := by
  decide

/-- C6: registry Add is idempotent with first-write-wins semantics — adding
under a present name changes nothing and Get keeps returning the original
descriptor, adding under an absent name inserts; both are total. -/
theorem dataplaneStore_Add_first_write_wins (d : dataplaneStore) (dp : Dataplane) :
    (∀ d0, dataplaneStore.Get d dp.RegisteredName = some d0 →
        dataplaneStore.Add d dp = d ∧
        dataplaneStore.Get (dataplaneStore.Add d dp) dp.RegisteredName = some d0) ∧
    (dataplaneStore.Get d dp.RegisteredName = none →
        dataplaneStore.Get (dataplaneStore.Add d dp) dp.RegisteredName = some dp) := by
  refine ⟨fun d0 h => ?_, fun h => ?_⟩
  · have h' : alookup d.dataplanes dp.RegisteredName = some d0 := h
    refine ⟨?_, ?_⟩
    · simp [dataplaneStore.Add, h']
    · simpa [dataplaneStore.Add, h'] using h
  · have h' : alookup d.dataplanes dp.RegisteredName = none := h
    simp [dataplaneStore.Add, dataplaneStore.Get, h', alookup]

/-- C6 witness: first write wins on a present name, insert on an absent one. -/
theorem dataplaneStore_Add_first_write_wins_witness :
    dataplaneStore.Get wStore "vpp1" = some wDpA ∧
    dataplaneStore.Add wStore wDpA2 = wStore ∧
    dataplaneStore.Get (dataplaneStore.Add wStore wDpA2) "vpp1" = some wDpA ∧
    dataplaneStore.Get wStore "vpp2" = none ∧
    dataplaneStore.Get (dataplaneStore.Add wStore wDpB) "vpp2" = some wDpB := by
  refine ⟨by decide, ?_, ?_, by decide, ?_⟩
  · exact ((dataplaneStore_Add_first_write_wins wStore wDpA2).1 wDpA (by decide)).1
  · exact ((dataplaneStore_Add_first_write_wins wStore wDpA2).1 wDpA (by decide)).2
  · exact (dataplaneStore_Add_first_write_wins wStore wDpB).2 (by decide)

/-- C10: on every input and every starting state, the active RequestConnection
path leaves both shared maps of the broker exactly as they were. -/
theorem RequestConnection_frame (n : NsmClientEndpoints) (cr : ConnectionRequest)
    (er : Except String (List NetworkServiceEndpoint)) :
    (RequestConnection n cr er).state.clientConnections = n.clientConnections ∧
    (RequestConnection n cr er).state.nsmSockets = n.nsmSockets := by
  have h : (RequestConnection n cr er).state = n := by
    unfold RequestConnection
    (repeat' split) <;> rfl
  rw [h]
  exact ⟨rfl, rfl⟩

/-- Helper: the zero-endpoint admission message can never coincide with the
unknown-service admission message, whatever gets interpolated. -/
theorem zero_endpoint_message_ne (rid svc rid2 : String) :
    "connection request " ++ rid ++
        " failed no endpoints were found for requested Network Service " ++ svc ≠
      "requested Network Service " ++ rid2 ++ " does not exist" := by
  intro heq
  have hA : ("connection request " ++ rid ++
      " failed no endpoints were found for requested Network Service " ++ svc).data.head? =
      some 'c' :=
    head_append_of_head _ _ _ (head_append_of_head _ _ _ (head_append_of_head _ _ _ rfl))
  have hB : ("requested Network Service " ++ rid2 ++ " does not exist").data.head? =
      some 'r' :=
    head_append_of_head _ _ _ (head_append_of_head _ _ _ rfl)
  rw [heq] at hA
  exact absurd (hA.symm.trans hB) (by decide)

/-- C2: on a new request for a registered service, a failed endpoint query
yields accepted=false with an aborted status; a successful query with zero
endpoints yields accepted=false with a not-found status whose admission
message differs from every unknown-service reply; and at least one endpoint
yields accepted=true with empty parameters and no state recorded. -/
theorem RequestConnection_new_request (n : NsmClientEndpoints) (cr : ConnectionRequest)
    (hsvc : GetNetworkService n cr.NetworkServiceName ≠ none)
    (hnew : lookupClientConnection n cr.RequestId cr.NetworkServiceName = none) :
    (∀ e : String,
        (RequestConnection n cr (Except.error e)).reply.Accepted = false ∧
        (RequestConnection n cr (Except.error e)).grpcStatus =
          some { code := GrpcCode.Aborted
                 message := "failed to get a list of endpoints for requested Network Service" }) ∧
    ((RequestConnection n cr (Except.ok [])).reply.Accepted = false ∧
      (RequestConnection n cr (Except.ok [])).grpcStatus =
        some { code := GrpcCode.NotFound
               message := "failed no endpoints were found for requested Network Service" } ∧
      ∀ (n2 : NsmClientEndpoints) (cr2 : ConnectionRequest)
          (er2 : Except String (List NetworkServiceEndpoint)),
          GetNetworkService n2 cr2.NetworkServiceName = none →
          (RequestConnection n cr (Except.ok [])).reply.AdmissionError ≠
            (RequestConnection n2 cr2 er2).reply.AdmissionError) ∧
    (∀ (ep : NetworkServiceEndpoint) (eps : List NetworkServiceEndpoint),
        (RequestConnection n cr (Except.ok (ep :: eps))).reply.Accepted = true ∧
        (RequestConnection n cr (Except.ok (ep :: eps))).reply.ConnectionParameters =
          some {} ∧
        (RequestConnection n cr (Except.ok (ep :: eps))).state = n) := by
  rcases hg : GetNetworkService n cr.NetworkServiceName with _ | ns
  · exact absurd hg hsvc
  · refine ⟨fun e => ?_, ⟨?_, ?_, ?_⟩, fun ep eps => ?_⟩
    · simp [RequestConnection, hg, hnew]
    · simp [RequestConnection, hg, hnew]
    · simp [RequestConnection, hg, hnew]
    · intro n2 cr2 er2 hg2
      simp only [RequestConnection, hg, hnew, hg2, List.length_nil, if_pos]
      exact zero_endpoint_message_ne cr.RequestId cr.NetworkServiceName cr2.RequestId
    · simp [RequestConnection, hg, hnew]

/-- C2 witness: all three outcomes on a registered service with no dedup
entry, including message distinctness against the unknown-service reply. -/
theorem RequestConnection_new_request_witness :
    GetNetworkService stateWithService sampleCr.NetworkServiceName ≠ none ∧
    lookupClientConnection stateWithService sampleCr.RequestId sampleCr.NetworkServiceName =
      none ∧
    (RequestConnection stateWithService sampleCr (Except.error "boom")).reply.Accepted =
      false ∧
    (RequestConnection stateWithService sampleCr (Except.ok [])).reply.Accepted = false ∧
    (RequestConnection stateWithService sampleCr (Except.ok [dummyEp])).reply.Accepted =
      true ∧
    (RequestConnection stateWithService sampleCr (Except.ok [])).reply.AdmissionError ≠
      (RequestConnection emptyState sampleCr (Except.ok [])).reply.AdmissionError := by
  have h := RequestConnection_new_request stateWithService sampleCr (by decide) (by decide)
  exact ⟨by decide, by decide, (h.1 "boom").1, h.2.1.1, (h.2.2 dummyEp []).1,
    h.2.1.2.2 emptyState sampleCr (Except.ok []) (by decide)⟩

/-- C7 counterexample: a device id absent from the socket table is skipped
whole — with an empty table, allocating dev-A creates no descriptor at all and
returns an empty mount list, refuting the claim that every id in the batch
gets a fresh descriptor. -/
theorem Allocate_unknown_id_counterexample :
    (Allocate emptyState { ContainerRequests := [{ DevicesIDs := ["dev-A"] }] }
        (fun _ => true)).1 =
      { ContainerResponses := [{ Mounts := [] }] } ∧
    alookup (Allocate emptyState { ContainerRequests := [{ DevicesIDs := ["dev-A"] }] }
        (fun _ => true)).2.nsmSockets "dev-A" = none := by
  decide

/-- C7 (amended): per device id of an Allocate batch, an id absent from the
socket table is silently skipped; an id present in the table always gets a
fresh descriptor registered (allocation flag set, stop channel drawn from the
fresh counter, socket path under the fixed base directory), and the mount
(container path the fixed base directory, host path derived as nsm-id) is
produced exactly when the host-directory creation succeeds — a failure is
silently omitted, with the batch reply never carrying an error. -/
theorem Allocate_known_id (st : NsmClientEndpoints) (mounts : List Mount) (id : String)
    (mkdirOk : String → Bool) :
    (alookup st.nsmSockets id = none →
        allocateOne mkdirOk (st, mounts) id = (st, mounts)) ∧
    (∀ prev, alookup st.nsmSockets id = some prev →
        (allocateOne mkdirOk (st, mounts) id).1.nsmSockets =
          aupdate st.nsmSockets id
            { device := { ID := id, Health := Healthy }
              socketPath := pathJoin (pathJoin SocketBaseDir ("nsm-" ++ id)) ServerSock
              stopChannel := st.nextChanId
              allocated := true } ∧
        (allocateOne mkdirOk (st, mounts) id).1.nextChanId = st.nextChanId + 1 ∧
        (allocateOne mkdirOk (st, mounts) id).2 =
          (if mkdirOk (pathJoin SocketBaseDir ("nsm-" ++ id)) then
            mounts ++ [{ ContainerPath := SocketBaseDir
                         HostPath := pathJoin SocketBaseDir ("nsm-" ++ id)
                         ReadOnly := false }]
          else mounts)) ∧
    (∀ ids : List String,
        (Allocate st { ContainerRequests := [{ DevicesIDs := ids }] } mkdirOk).1 =
          { ContainerResponses :=
              [{ Mounts := (ids.foldl (allocateOne mkdirOk) (st, [])).2 }] }) := by
  refine ⟨fun h => ?_, fun prev h => ?_, fun ids => ?_⟩
  · simp [allocateOne, h]
  · by_cases hmk : mkdirOk (pathJoin SocketBaseDir ("nsm-" ++ id)) <;>
      simp [allocateOne, h, hmk]
  · rfl

/-- C7 witness: a known id gets its descriptor replaced and its mount emitted
when the directory creation succeeds. -/
theorem Allocate_known_id_witness :
    alookup wSockState.nsmSockets "dev-A" = some wSocket ∧
    (allocateOne (fun _ => true) (wSockState, []) "dev-A").1.nsmSockets =
      aupdate wSockState.nsmSockets "dev-A"
        { device := { ID := "dev-A", Health := Healthy }
          socketPath := pathJoin (pathJoin SocketBaseDir ("nsm-" ++ "dev-A")) ServerSock
          stopChannel := wSockState.nextChanId
          allocated := true } ∧
    (allocateOne (fun _ => true) (wSockState, []) "dev-A").2 =
      [{ ContainerPath := SocketBaseDir
         HostPath := pathJoin SocketBaseDir ("nsm-" ++ "dev-A")
         ReadOnly := false }] ∧
    alookup (allocateOne (fun _ => false) (wSockState, []) "dev-A").1.nsmSockets "dev-A" ≠
      some wSocket ∧
    (allocateOne (fun _ => false) (wSockState, []) "dev-A").2 = [] := by
  have h := Allocate_known_id wSockState [] "dev-A" (fun _ => true)
  have h2 := Allocate_known_id wSockState [] "dev-A" (fun _ => false)
  refine ⟨by decide, (h.2.1 wSocket (by decide)).1, ?_, by decide, ?_⟩
  · have h3 := (h.2.1 wSocket (by decide)).2.2
    simpa using h3
  · have h4 := (h2.2.1 wSocket (by decide)).2.2
    simpa using h4

/-- C9 counterexample: a failed push to the watcher does not end the loop —
the body only logs the failure and schedules the next iteration, refuting the
claim that transport failure terminates the watch. -/
theorem listAndWatch_failed_send_counterexample :
    (listAndWatchStep emptyState false).2.2 = true ∧
    (listAndWatchStep emptyState false).2.1 = ["Failed to send response to kubelet"] := by
  decide

/-- C9 (amended): every iteration of the ListAndWatch loop snapshots the
current device table into the pushed response and the loop always continues,
logging — not exiting on — a transport failure. -/
theorem listAndWatchStep_spec (n : NsmClientEndpoints) (sendOk : Bool) :
    (∀ p ∈ n.nsmSockets, p.2.device ∈ (listAndWatchStep n sendOk).1.Devices) ∧
    (listAndWatchStep n sendOk).2.1 =
      (if sendOk then [] else ["Failed to send response to kubelet"]) ∧
    (listAndWatchStep n sendOk).2.2 = true := by
  refine ⟨fun p hp => ?_, rfl, rfl⟩
  exact List.mem_map_of_mem _ hp

/-- C9 witness: a concrete device appears in the snapshot and a failed send
still continues the loop. -/
theorem listAndWatchStep_spec_witness :
    ("dev-A", wSocket) ∈ wSockState.nsmSockets ∧
    wSocket.device ∈ (listAndWatchStep wSockState false).1.Devices ∧
    (listAndWatchStep wSockState false).2.2 = true := by
  have h := listAndWatchStep_spec wSockState false
  exact ⟨by decide, h.1 ("dev-A", wSocket) (by decide), h.2.2⟩
